import Mathlib

/-!
Shallow embedding of the CSV-to-JSON conversion service (`src/server.js`).

The service is a single Express endpoint `POST /convert`: a multer upload
stage with a CSV-only `fileFilter` writes the uploaded file into the
uploads directory (the Temp File Store), the handler streams it through
`csv-parser` with `skipLines: 0, strict: true, maxRows: 100000`, and
responds with the collected records, their count and the elapsed time,
deleting the temp file in both the `end` and the `error` handler.
A startup routine `cleanupUploads` purges leftover files.

The Temp File Store is modelled as the list of file paths currently in the
uploads directory; wall-clock time as an explicit `elapsedMs : Nat`
parameter; the `NODE_ENV` environment variable as a Boolean
`production` flag.
-/

/-- Decidable equality for `Except`, needed to evaluate decode outcomes
on concrete inputs. -/
instance exceptDecEq {e a : Type} [DecidableEq e] [DecidableEq a] :
    DecidableEq (Except e a) := fun x y =>
  match x, y with
  | Except.ok u, Except.ok v =>
    if h : u = v then isTrue (by rw [h]) else isFalse (fun hc => by cases hc; exact h rfl)
  | Except.ok _, Except.error _ => isFalse (fun hc => by cases hc)
  | Except.error _, Except.ok _ => isFalse (fun hc => by cases hc)
  | Except.error u, Except.error v =>
    if h : u = v then isTrue (by rw [h]) else isFalse (fun hc => by cases hc; exact h rfl)

/-- A record produced by the decoder: an ordered association of column
name to cell value (JavaScript object keys keep insertion order, and
`csv-parser` inserts keys in header order). -/
abbrev Record := List (String × String)

/-- Maximum row count passed to the parser (`MAX_ROWS`, `server.js` line 66). -/
def MAX_ROWS : Nat := 100000

/-- Split a character list at every occurrence of the separator `c`. -/
def splitOnChar (c : Char) : List Char → List (List Char)
  | [] => [[]]
  | x :: xs =>
    let rest := splitOnChar c xs
    if x = c then [] :: rest
    else
      match rest with
      | [] => [[x]]
      | h :: t => (x :: h) :: t

/-- Split a string at every occurrence of the separator `c`. -/
def splitStr (c : Char) (s : String) : List String :=
  (splitOnChar c s.toList).map String.mk

/-- Modelled from the spec: the `csv-parser` dependency (not part of this
repository) splits each row on the separator, by default a comma; quoting
is not exercised by any claim. -/
def splitFields (line : String) : List String :=
  splitStr ',' line

/-- A trailing newline in the file leaves an empty final fragment, which
produces no row. -/
def dropTrailingEmpty : List String → List String
  | [] => []
  | [l] => if l = "" then [] else [l]
  | l :: ls => l :: dropTrailingEmpty ls

/-- Modelled from the spec: the lines of the uploaded file's content that
the `csv-parser` dependency treats as rows (newline-delimited, a trailing
newline producing no extra row). -/
def csvLines (content : String) : List String :=
  dropTrailingEmpty (splitStr '\n' content)

/-- Modelled from the spec: `csv-parser` in strict mode maps each data row
to a record pairing the header columns with the row's cells; a row whose
column count mismatches the header aborts the whole decode with an error
(fail-fast). Read errors likewise surface as the single decode error. -/
def parseRows (headers : List String) : List String → Except String (List Record)
  | [] => Except.ok []
  | r :: rs =>
    if (splitFields r).length = headers.length then
      (parseRows headers rs).map (fun recs => headers.zip (splitFields r) :: recs)
    else
      Except.error "Row length does not match headers"

/-- Modelled from the spec: the decoder stops accepting rows past the
configured cap (`maxRows`), silently dropping further input. -/
def decodeRows (headers : List String) (rows : List String) : Except String (List Record) :=
  parseRows headers (rows.take MAX_ROWS)

/-- Modelled from the spec: the whole `csv-parser` decode of the stored
file's content. The first line defines the column names; each later line
is a data row. An empty file produces no records and no error. -/
def parseCsv (content : String) : Except String (List Record) :=
  match csvLines content with
  | [] => Except.ok []
  | header :: rows => decodeRows (splitFields header) rows

/-- An uploaded file as multer presents it: client-supplied name, declared
media type, assigned storage path, and the stored content. -/
structure UploadedFile where
  originalname : String
  mimetype : String
  path : String
  content : String
  deriving Repr, DecidableEq

/-- The `fileFilter` of the multer configuration (`server.js` lines 49-55):
accept when the declared media type is `text/csv` or the original
filename ends in `.csv`. -/
def fileFilter (f : UploadedFile) : Bool :=
  f.mimetype == "text/csv" || ".csv".toList.isSuffixOf f.originalname.toList

/-- Body of the 200 response (`server.js` lines 92-96): exactly the fields
`data`, `rowCount` and `processingTime`. -/
structure SuccessBody where
  data : List Record
  rowCount : Nat
  processingTime : String
  deriving Repr, DecidableEq

/-- A JSON response body of the service: the success shape, an error
object `\x7b error \x7d`, or the error-middleware object
`\x7b error, message \x7d` (`server.js` lines 111-114). -/
inductive ResponseBody where
  | success (b : SuccessBody)
  | jsonError (error : String)
  | jsonErrorWithMessage (error : String) (message : String)
  deriving Repr, DecidableEq

/-- An HTTP response: status code and JSON body. -/
structure Response where
  status : Nat
  body : ResponseBody
  deriving Repr, DecidableEq

/-- Outcome of the multer `upload.single` middleware for one request. -/
inductive UploadOutcome where
  | noFile
  | accepted (f : UploadedFile)
  | rejected
  deriving Repr, DecidableEq

/-- Modelled from the spec: the multer `upload.single` middleware
(not part of this repository). With no file field the handler runs with
`req.file` undefined; an accepted file is persisted into the Temp File
Store; a file rejected by `fileFilter` is not persisted and its error is
passed on to the error-handling middleware. -/
def uploadSingle (reqFile : Option UploadedFile) (store : List String) :
    UploadOutcome × List String :=
  match reqFile with
  | none => (UploadOutcome.noFile, store)
  | some f =>
    if fileFilter f then (UploadOutcome.accepted f, store ++ [f.path])
    else (UploadOutcome.rejected, store)

/-- Result of one `POST /convert` request: the response sent, the Temp
File Store afterwards, and the paths passed to `fs.unlink` during the
request. -/
structure ReqResult where
  resp : Response
  store : List String
  unlinked : List String
  deriving Repr, DecidableEq

/-- The `POST /convert` pipeline (`server.js` lines 59-106 plus the
error-handling middleware of lines 109-115): the multer stage, the
`req.file` check, the decode, and the `end`/`error` handlers, each of
which unlinks the temp file before responding. `elapsedMs` is the
wall-clock time from just before the decode starts (line 67) to just
before the response is sent (line 91); `production` tells whether
`NODE_ENV` is `production`. -/
def convertRoute (reqFile : Option UploadedFile) (elapsedMs : Nat)
    (production : Bool) (store : List String) : ReqResult :=
  match uploadSingle reqFile store with
  | (UploadOutcome.noFile, s) =>
    { resp := { status := 400, body := ResponseBody.jsonError "No file uploaded" },
      store := s, unlinked := [] }
  | (UploadOutcome.rejected, s) =>
    { resp := { status := 500,
                body := ResponseBody.jsonErrorWithMessage
                  "Server encountered an unexpected error"
                  (if production then "Please try again later"
                   else "Only CSV files are allowed") },
      store := s, unlinked := [] }
  | (UploadOutcome.accepted f, s) =>
    match parseCsv f.content with
    | Except.ok results =>
      { resp := { status := 200,
                  body := ResponseBody.success
                    { data := results, rowCount := results.length,
                      processingTime := Nat.repr elapsedMs ++ "ms" } },
        store := s.erase f.path, unlinked := [f.path] }
    | Except.error _ =>
      { resp := { status := 500, body := ResponseBody.jsonError "Failed to convert file" },
        store := s.erase f.path, unlinked := [f.path] }

/-- One entry of the Temp File Store as the startup purge sees it: its
name and whether `fs.unlinkSync` succeeds on it. -/
structure StoredFile where
  name : String
  unlinkOk : Bool
  deriving Repr, DecidableEq

/-- The startup purge `cleanupUploads` (`server.js` lines 19-30): iterate
over the directory entries, `unlinkSync` each; the single try/catch wraps
the whole loop, so a failing removal raises out of the `forEach`, is
caught, and ends the purge. Returns the files remaining afterwards. -/
def cleanupUploads : List StoredFile → List StoredFile
  | [] => []
  | f :: fs => if f.unlinkOk then cleanupUploads fs else f :: fs

/-- A well-formed two-column sample upload whose content is the spec's
concrete scenario `"a,b\n1,2\n3,4\n"`. -/
def sampleFile : UploadedFile where
  originalname := "data.csv"
  mimetype := "text/csv"
  path := "uploads/1-data.csv"
  content := "a,b\n1,2\n3,4\n"

/-- An upload that is neither declared `text/csv` nor named `*.csv`. -/
def plainTextFile : UploadedFile where
  originalname := "notes.txt"
  mimetype := "text/plain"
  path := "uploads/2-notes.txt"
  content := "hello"

/-- An upload whose second data row has three cells under a two-column
header, violating strict mode. -/
def badRowFile : UploadedFile where
  originalname := "bad.csv"
  mimetype := "text/csv"
  path := "uploads/3-bad.csv"
  content := "a,b\n1,2,3"

/-- An upload whose content is completely empty. -/
def emptyFile : UploadedFile where
  originalname := "empty.csv"
  mimetype := "text/csv"
  path := "uploads/4-empty.csv"
  content := ""

/-- An upload holding only a header row and a trailing newline. -/
def headerOnlyFile : UploadedFile where
  originalname := "header.csv"
  mimetype := "text/csv"
  path := "uploads/5-header.csv"
  content := "a,b\n"

/-- A leftover entry whose removal fails. -/
def stuckFile : StoredFile where
  name := "stuck.csv"
  unlinkOk := false

/-- A leftover entry whose removal would succeed. -/
def looseFile : StoredFile where
  name := "loose.csv"
  unlinkOk := true

/-- When every data row's cell count matches the header, the strict decode
succeeds and yields one record per row, pairing the header with the cells. -/
theorem parseRows_ok_of_widths (hs : List String) (rs : List String)
    (hw : ∀ r ∈ rs, (splitFields r).length = hs.length) :
    parseRows hs rs = Except.ok (rs.map fun r => hs.zip (splitFields r)) := by
  induction rs with
  | nil => rfl
  | cons r rs ih =>
    have h1 : (splitFields r).length = hs.length := hw r (List.mem_cons_self r rs)
    have h2 := ih fun x hx => hw x (List.mem_cons_of_mem r hx)
    simp [parseRows, h1, h2, Except.map]

/-- Conversely, a successful strict decode forces every row to match the
header's width, and the records are exactly the rows' zips in row order. -/
theorem parseRows_ok_inv (hs : List String) (rs : List String) (recs : List Record)
    (h : parseRows hs rs = Except.ok recs) :
    recs = rs.map (fun r => hs.zip (splitFields r)) ∧
    ∀ r ∈ rs, (splitFields r).length = hs.length := by
  induction rs generalizing recs with
  | nil =>
    simp only [parseRows] at h
    cases h
    simp
  | cons r rs ih =>
    by_cases hc : (splitFields r).length = hs.length
    · simp only [parseRows, if_pos hc] at h
      cases hp : parseRows hs rs with
      | ok recs0 =>
        rw [hp] at h
        simp only [Except.map] at h
        cases h
        obtain ⟨h1, h2⟩ := ih recs0 hp
        refine ⟨by simp [h1], ?_⟩
        intro x hx
        rcases List.mem_cons.mp hx with hx | hx
        · rw [hx]; exact hc
        · exact h2 x hx
      | error e =>
        rw [hp] at h
        simp [Except.map] at h
    · simp [parseRows, if_neg hc] at h

/-- A successful strict decode yields exactly one record per input row. -/
theorem parseRows_length (hs : List String) (rs : List String) (recs : List Record)
    (h : parseRows hs rs = Except.ok recs) : recs.length = rs.length := by
  rw [(parseRows_ok_inv hs rs recs h).1]
  simp

/-- Strict decode of n copies of a row matching the header succeeds with n
copies of the corresponding record. -/
theorem parseRows_replicate (hs : List String) (r : String)
    (hw : (splitFields r).length = hs.length) (n : Nat) :
    parseRows hs (List.replicate n r) =
      Except.ok (List.replicate n (hs.zip (splitFields r))) := by
  induction n with
  | zero => rfl
  | succ n ih => simp [List.replicate_succ, parseRows, hw, ih, Except.map]

/-- The capped decoder on one more single-cell row than the cap allows
returns exactly `MAX_ROWS` records. -/
theorem decodeRows_replicate_cap :
    decodeRows ["h"] (List.replicate (MAX_ROWS + 1) "1") =
      Except.ok (List.replicate MAX_ROWS [("h", "1")]) := by
  have hw : (splitFields "1").length = (["h"] : List String).length := by decide
  have hz : (["h"] : List String).zip (splitFields "1") = [("h", "1")] := by decide
  rw [decodeRows, List.take_replicate]
  have hmin : min MAX_ROWS (MAX_ROWS + 1) = MAX_ROWS := by omega
  rw [hmin, parseRows_replicate _ _ hw, hz]

/-- Any successful capped decode returns at most `MAX_ROWS` records. -/
theorem decodeRows_length_le (hs : List String) (rows : List String) (recs : List Record)
    (h : decodeRows hs rows = Except.ok recs) : recs.length ≤ MAX_ROWS := by
  rw [decodeRows] at h
  rw [parseRows_length hs _ recs h, List.length_take]
  exact Nat.min_le_left _ _

/-- Unfolding the decode once the file's lines are known to have a header. -/
theorem parseCsv_of_lines (content : String) (header : String) (rows : List String)
    (hl : csvLines content = header :: rows) :
    parseCsv content = decodeRows (splitFields header) rows := by
  unfold parseCsv
  rw [hl]

/-- The route on an accepted file whose decode succeeds: the `end` handler
unlinks the temp file and sends the 200 body. -/
theorem convertRoute_ok (f : UploadedFile) (elapsedMs : Nat) (production : Bool)
    (store : List String) (recs : List Record)
    (hf : fileFilter f = true) (hp : parseCsv f.content = Except.ok recs) :
    convertRoute (some f) elapsedMs production store =
      { resp := { status := 200,
                  body := ResponseBody.success
                    { data := recs, rowCount := recs.length,
                      processingTime := Nat.repr elapsedMs ++ "ms" } },
        store := (store ++ [f.path]).erase f.path, unlinked := [f.path] } := by
  simp [convertRoute, uploadSingle, hf, hp]

/-- The route on an accepted file whose decode fails: the `error` handler
unlinks the temp file and sends the 500 body. -/
theorem convertRoute_error (f : UploadedFile) (elapsedMs : Nat) (production : Bool)
    (store : List String) (msg : String)
    (hf : fileFilter f = true) (hp : parseCsv f.content = Except.error msg) :
    convertRoute (some f) elapsedMs production store =
      { resp := { status := 500, body := ResponseBody.jsonError "Failed to convert file" },
        store := (store ++ [f.path]).erase f.path, unlinked := [f.path] } := by
  simp [convertRoute, uploadSingle, hf, hp]

/-- C1: for every accepted upload whose lines are a header followed by N data
rows all matching the header's column count, N within the row cap, the
handler responds 200 with a `data` array of length N (one record per row)
and `rowCount = N`. -/
theorem convert_valid_csv (f : UploadedFile) (elapsedMs : Nat) (production : Bool)
    (store : List String) (header : String) (rows : List String)
    (hf : fileFilter f = true)
    (hl : csvLines f.content = header :: rows)
    (hw : ∀ r ∈ rows, (splitFields r).length = (splitFields header).length)
    (hcap : rows.length ≤ MAX_ROWS) :
    (convertRoute (some f) elapsedMs production store).resp =
      { status := 200,
        body := ResponseBody.success
          { data := rows.map fun r => (splitFields header).zip (splitFields r),
            rowCount := rows.length,
            processingTime := Nat.repr elapsedMs ++ "ms" } } ∧
    (rows.map fun r => (splitFields header).zip (splitFields r)).length = rows.length := by
  have hp : parseCsv f.content =
      Except.ok (rows.map fun r => (splitFields header).zip (splitFields r)) := by
    rw [parseCsv_of_lines f.content header rows hl, decodeRows, List.take_of_length_le hcap]
    exact parseRows_ok_of_widths _ _ hw
  rw [convertRoute_ok f elapsedMs production store _ hf hp]
  simp

/-- C1 witness: the spec's concrete scenario `"a,b\n1,2\n3,4\n"` yields
`data = [\x7ba:"1",b:"2"\x7d, \x7ba:"3",b:"4"\x7d]` and `rowCount = 2`. -/
theorem convert_valid_csv_witness :
    (convertRoute (some sampleFile) 5 false []).resp =
      { status := 200,
        body := ResponseBody.success
          { data := [[("a", "1"), ("b", "2")], [("a", "3"), ("b", "4")]],
            rowCount := 2, processingTime := "5ms" } } := by
  have h := convert_valid_csv sampleFile 5 false [] "a,b" ["1,2", "3,4"]
    (by decide) (by decide) (by decide) (by decide)
  exact h.1.trans (by decide)

/-- C2: the number of records a successful decode returns is at most 100000,
and a decode of 100001 data rows returns exactly 100000 records, not
100001. -/
theorem decoder_row_cap (content : String) (recs : List Record)
    (h : parseCsv content = Except.ok recs)
    (headers rows : List String) (capped : List Record)
    (hn : rows.length = MAX_ROWS + 1)
    (hc : decodeRows headers rows = Except.ok capped) :
    recs.length ≤ MAX_ROWS ∧ capped.length = MAX_ROWS := by
  constructor
  · unfold parseCsv at h
    cases hl : csvLines content with
    | nil =>
      rw [hl] at h
      injection h with h
      rw [← h]
      exact Nat.zero_le _
    | cons hd tl =>
      rw [hl] at h
      exact decodeRows_length_le _ _ _ h
  · rw [decodeRows] at hc
    rw [parseRows_length _ _ _ hc, List.length_take, hn]
    omega

/-- C2 witness: a small decode stays under the cap, and the capped decoder on
100001 single-cell rows returns exactly 100000 records. -/
theorem decoder_row_cap_witness :
    parseCsv "a,b\n1,2" = Except.ok [[("a", "1"), ("b", "2")]] ∧
    (List.replicate (MAX_ROWS + 1) "1").length = MAX_ROWS + 1 ∧
    decodeRows ["h"] (List.replicate (MAX_ROWS + 1) "1") =
      Except.ok (List.replicate MAX_ROWS [("h", "1")]) ∧
    ([[("a", "1"), ("b", "2")]] : List Record).length ≤ MAX_ROWS ∧
    (List.replicate MAX_ROWS ([("h", "1")] : Record)).length = MAX_ROWS := by
  have h1 : parseCsv "a,b\n1,2" = Except.ok [[("a", "1"), ("b", "2")]] := by decide
  have h2 : (List.replicate (MAX_ROWS + 1) "1").length = MAX_ROWS + 1 := by simp
  have h3 := decodeRows_replicate_cap
  have h := decoder_row_cap "a,b\n1,2" [[("a", "1"), ("b", "2")]] h1
    ["h"] (List.replicate (MAX_ROWS + 1) "1") (List.replicate MAX_ROWS [("h", "1")]) h2 h3
  exact ⟨h1, h2, h3, h.1, h.2⟩

/-- C3 counterexample: `plainTextFile` neither declares `text/csv` nor ends in
`.csv`; the response to it has status 500 — the generic error middleware —
which is not a client-error (4xx) status, refuting the claim as stated. -/
theorem nonCsv_not_client_error :
    fileFilter plainTextFile = false ∧
    (convertRoute (some plainTextFile) 0 false []).resp.status = 500 ∧
    ¬ ((convertRoute (some plainTextFile) 0 false []).resp.status < 500) ∧
    (convertRoute (some plainTextFile) 0 false []).store = [] := by decide

/-- C3 (amended): a request whose file neither declares `text/csv` nor is
named `*.csv` is rejected by `fileFilter` before persistence; the rejection
propagates to the error-handling middleware, which responds with status 500,
and the Temp File Store is left exactly as it was (no file of this request
remains). -/
theorem nonCsv_rejected (f : UploadedFile) (elapsedMs : Nat) (production : Bool)
    (store : List String)
    (hm : f.mimetype ≠ "text/csv")
    (he : ".csv".toList.isSuffixOf f.originalname.toList = false) :
    convertRoute (some f) elapsedMs production store =
      { resp := { status := 500,
                  body := ResponseBody.jsonErrorWithMessage
                    "Server encountered an unexpected error"
                    (if production then "Please try again later"
                     else "Only CSV files are allowed") },
        store := store, unlinked := [] } := by
  have hf : fileFilter f = false := by
    unfold fileFilter
    rw [he]
    simp [hm]
  simp [convertRoute, uploadSingle, hf]

/-- C3 (amended) witness: the concrete non-CSV upload in production mode
leaves the store untouched and gets the middleware's 500. -/
theorem nonCsv_rejected_witness :
    convertRoute (some plainTextFile) 3 true ["uploads/other.csv"] =
      { resp := { status := 500,
                  body := ResponseBody.jsonErrorWithMessage
                    "Server encountered an unexpected error" "Please try again later" },
        store := ["uploads/other.csv"], unlinked := [] } := by
  have h := nonCsv_rejected plainTextFile 3 true ["uploads/other.csv"] (by decide) (by decide)
  exact h.trans (by decide)

/-- C4 counterexample: with two leftover files where removing the first
fails, the purge stops: the second file, whose removal would succeed, is
still there, refuting "continues removing the remaining entries". -/
theorem cleanup_stops_at_first_failure :
    cleanupUploads [stuckFile, looseFile] = [stuckFile, looseFile] ∧
    cleanupUploads [stuckFile, looseFile] ≠ [] := by decide

/-- C4 (amended): the startup purge removes entries in order up to the first
entry whose removal fails; that failure is caught (never fatal to the
process) but ends the purge, leaving the failing entry and all later ones,
so the store is emptied exactly when every removal succeeds. -/
theorem cleanupUploads_spec (files : List StoredFile) :
    cleanupUploads files = files.dropWhile (fun f => f.unlinkOk) ∧
    (cleanupUploads files = [] ↔ ∀ f ∈ files, f.unlinkOk = true) := by
  have h : cleanupUploads files = files.dropWhile (fun f => f.unlinkOk) := by
    induction files with
    | nil => rfl
    | cons f fs ih =>
      by_cases hok : f.unlinkOk = true
      · simp [cleanupUploads, List.dropWhile_cons, hok, ih]
      · simp [cleanupUploads, List.dropWhile_cons, hok]
  refine ⟨h, ?_⟩
  rw [h, List.dropWhile_eq_nil_iff]

/-- C5: a request whose file is accepted deletes its temp file exactly once —
on the success path and on the decode-failure path alike — and afterwards
the Temp File Store holds no file belonging to the request. -/
theorem temp_file_deleted_once (f : UploadedFile) (elapsedMs : Nat) (production : Bool)
    (store : List String)
    (hf : fileFilter f = true) (hfresh : f.path ∉ store) :
    (convertRoute (some f) elapsedMs production store).unlinked = [f.path] ∧
    (convertRoute (some f) elapsedMs production store).store = store ∧
    f.path ∉ (convertRoute (some f) elapsedMs production store).store := by
  have herase : (store ++ [f.path]).erase f.path = store := by
    rw [List.erase_append_right _ hfresh, List.erase_cons_head, List.append_nil]
  cases hp : parseCsv f.content with
  | ok recs =>
    rw [convertRoute_ok f elapsedMs production store recs hf hp]
    refine ⟨rfl, herase, ?_⟩
    show f.path ∉ (store ++ [f.path]).erase f.path
    rw [herase]
    exact hfresh
  | error e =>
    rw [convertRoute_error f elapsedMs production store e hf hp]
    refine ⟨rfl, herase, ?_⟩
    show f.path ∉ (store ++ [f.path]).erase f.path
    rw [herase]
    exact hfresh

/-- C5 witness: the sample request unlinks its own temp file exactly once and
leaves the store as it found it. -/
theorem temp_file_deleted_once_witness :
    (convertRoute (some sampleFile) 0 true ["uploads/other.csv"]).unlinked =
      ["uploads/1-data.csv"] ∧
    (convertRoute (some sampleFile) 0 true ["uploads/other.csv"]).store =
      ["uploads/other.csv"] ∧
    "uploads/1-data.csv" ∉ (convertRoute (some sampleFile) 0 true ["uploads/other.csv"]).store :=
  temp_file_deleted_once sampleFile 0 true ["uploads/other.csv"] (by decide) (by decide)

/-- C6: a failing decode (strict-mode column-count mismatch, or a read error
surfaced by the stream) makes the handler respond 500 with body exactly
`\x7b error: "Failed to convert file" \x7d`; the partially collected records
are discarded — the body is not a success body carrying data — and the temp
file is unlinked. -/
theorem decode_failure_500 (f : UploadedFile) (elapsedMs : Nat) (production : Bool)
    (store : List String) (msg : String)
    (hf : fileFilter f = true) (hp : parseCsv f.content = Except.error msg) :
    convertRoute (some f) elapsedMs production store =
      { resp := { status := 500, body := ResponseBody.jsonError "Failed to convert file" },
        store := (store ++ [f.path]).erase f.path, unlinked := [f.path] } ∧
    ∀ b : SuccessBody,
      (convertRoute (some f) elapsedMs production store).resp.body ≠
        ResponseBody.success b := by
  have h := convertRoute_error f elapsedMs production store msg hf hp
  refine ⟨h, ?_⟩
  intro b hb
  rw [h] at hb
  cases hb

/-- C6 witness: the upload whose row `1,2,3` mismatches the header `a,b`
gets exactly the 500 body, its temp file unlinked. -/
theorem decode_failure_500_witness :
    convertRoute (some badRowFile) 7 false [] =
      { resp := { status := 500, body := ResponseBody.jsonError "Failed to convert file" },
        store := [], unlinked := ["uploads/3-bad.csv"] } := by
  have h := decode_failure_500 badRowFile 7 false [] "Row length does not match headers"
    (by decide) (by decide)
  exact h.1.trans (by decide)

/-- C7: a request with no file field gets status 400 and body exactly
`\x7b error: "No file uploaded" \x7d`; nothing is decoded, persisted or
unlinked. -/
theorem no_file_400 (elapsedMs : Nat) (production : Bool) (store : List String) :
    convertRoute none elapsedMs production store =
      { resp := { status := 400, body := ResponseBody.jsonError "No file uploaded" },
        store := store, unlinked := [] } := rfl

/-- C8: every record of a successful decode pairs exactly the header's column
names with the row's cells — keys equal the header columns in header order —
and the records appear in the same order as their rows in the source. -/
theorem records_keys_and_order (content : String) (header : String) (rows : List String)
    (recs : List Record)
    (hl : csvLines content = header :: rows)
    (hp : parseCsv content = Except.ok recs) :
    recs = (rows.take MAX_ROWS).map (fun r => (splitFields header).zip (splitFields r)) ∧
    ∀ rec ∈ recs, rec.map Prod.fst = splitFields header := by
  rw [parseCsv_of_lines content header rows hl, decodeRows] at hp
  obtain ⟨h1, h2⟩ := parseRows_ok_inv _ _ _ hp
  refine ⟨h1, ?_⟩
  intro rec hrec
  rw [h1] at hrec
  obtain ⟨r, hr, rfl⟩ := List.mem_map.mp hrec
  exact List.map_fst_zip _ _ (le_of_eq (h2 r hr).symm)

/-- C8 witness: in the spec's concrete scenario the first record's keys are
exactly the header columns `a`, `b`, in that order. -/
theorem records_keys_and_order_witness :
    ([("a", "1"), ("b", "2")] : Record).map Prod.fst = splitFields "a,b" := by
  have h := records_keys_and_order "a,b\n1,2\n3,4\n" "a,b" ["1,2", "3,4"]
    [[("a", "1"), ("b", "2")], [("a", "3"), ("b", "4")]] (by decide) (by decide)
  exact h.2 [("a", "1"), ("b", "2")] (by decide)

/-- C9: every successful response body is a `SuccessBody` — exactly the
fields `data`, `rowCount` and `processingTime` — with `processingTime` the
decimal integer elapsed milliseconds (measured from just before the decode
starts to just before the response is sent) followed by `ms`. -/
theorem success_body_shape (f : UploadedFile) (elapsedMs : Nat) (production : Bool)
    (store : List String) (recs : List Record)
    (hf : fileFilter f = true) (hp : parseCsv f.content = Except.ok recs) :
    (convertRoute (some f) elapsedMs production store).resp =
      { status := 200,
        body := ResponseBody.success
          { data := recs, rowCount := recs.length,
            processingTime := Nat.repr elapsedMs ++ "ms" } } := by
  rw [convertRoute_ok f elapsedMs production store recs hf hp]

/-- C9 witness: the sample request with 12 elapsed milliseconds reports
`processingTime = "12ms"`. -/
theorem success_body_shape_witness :
    (convertRoute (some sampleFile) 12 false []).resp =
      { status := 200,
        body := ResponseBody.success
          { data := [[("a", "1"), ("b", "2")], [("a", "3"), ("b", "4")]],
            rowCount := 2, processingTime := "12ms" } } := by
  have h := success_body_shape sampleFile 12 false []
    [[("a", "1"), ("b", "2")], [("a", "3"), ("b", "4")]] (by decide) (by decide)
  exact h.trans (by decide)

/-- C10: an accepted upload that is empty, or holds only a header row, is not
an error: the handler responds 200 with `data = []` and `rowCount = 0`. -/
theorem empty_csv_ok (f : UploadedFile) (elapsedMs : Nat) (production : Bool)
    (store : List String)
    (hf : fileFilter f = true) (hshort : (csvLines f.content).length ≤ 1) :
    (convertRoute (some f) elapsedMs production store).resp =
      { status := 200,
        body := ResponseBody.success
          { data := [], rowCount := 0, processingTime := Nat.repr elapsedMs ++ "ms" } } := by
  have hp : parseCsv f.content = Except.ok [] := by
    cases hl : csvLines f.content with
    | nil =>
      unfold parseCsv
      rw [hl]
    | cons hd tl =>
      cases tl with
      | cons a b =>
        rw [hl] at hshort
        simp only [List.length_cons] at hshort
        omega
      | nil =>
        unfold parseCsv
        rw [hl]
        rfl
  rw [convertRoute_ok f elapsedMs production store [] hf hp]
  rfl

/-- C10 witness: the empty upload and the header-only upload both get 200
with no records. -/
theorem empty_csv_ok_witness :
    (convertRoute (some emptyFile) 0 false []).resp =
      { status := 200,
        body := ResponseBody.success
          { data := [], rowCount := 0, processingTime := "0ms" } } ∧
    (convertRoute (some headerOnlyFile) 2 false []).resp =
      { status := 200,
        body := ResponseBody.success
          { data := [], rowCount := 0, processingTime := "2ms" } } := by
  have h1 := empty_csv_ok emptyFile 0 false [] (by decide) (by decide)
  have h2 := empty_csv_ok headerOnlyFile 2 false [] (by decide) (by decide)
  exact ⟨h1.trans (by decide), h2.trans (by decide)⟩
